import Mathlib

/-!
# Verification of the bingo-backend room/turn-arbitration server

Shallow embedding of the game-room state machine of `src/index.js` (the
room-based server: `gameRooms` registry, per-room handlers for
create/join/start/markNumber/declareWin/rematch/leave/disconnect).

Modelling conventions:

* One room is modelled.  `Option GameRoom` is that room's entry in the
  `gameRooms` map: `none` means the room's code is absent from the registry
  (never created, or deleted), `some r` means the registry maps the code to
  room state `r`.
* Connection identifiers (`socket.id`) are `Nat`.
* The per-socket variable `playerCurrentGameId` is represented by
  membership: a sender is bound to the modelled room exactly when its id
  occurs in the room's `players` list.  The two are updated together in
  every handler of the source (join/create set both, leave/disconnect clear
  both), so this is an invariant of the source.  A sender bound to a
  *different* room never reaches the modelled room's state in the source;
  such events are simply not part of a modelled run.
* `Math.floor(Math.random() * players.length)` in `startGame` is modelled
  by an explicit `choice : Nat` parameter taken modulo `players.length`,
  which ranges over exactly the same indices.
* Every handler returns the new registry entry together with the list of
  messages it emits (`socket.emit` to the sender, `io.to(room).emit`
  broadcasts, and the `emitGameState` snapshot broadcast, modelled as the
  opaque marker `Msg.gameStateB` since its payload is a function of the
  room state).
-/

/-- A player record as stored in `gameRoom.players`
(`{ id, socket, username, playerNumber }`; the raw socket handle carries no
state and is omitted). -/
structure Player where
  id : Nat
  username : String
  playerNumber : Nat
deriving Repr, DecidableEq

/-- The per-room state object created in the `createGame` handler
(src/index.js lines 127-137).  The immutable `gameId` string is the key of
the registry entry and is left implicit. -/
structure GameRoom where
  players : List Player
  gameStarted : Bool
  currentTurnPlayerId : Option Nat
  markedNumbers : List Int
  turnIndex : Nat
  winnerId : Option Nat
  draw : Bool
  pendingNewMatchRequest : Option (Nat × String)
deriving Repr, DecidableEq

/-- The ids of the room's players, in seating order. -/
def idsOf (r : GameRoom) : List Nat := r.players.map Player.id

/-- Messages emitted by the handlers: sender-directed emits carry the
recipient id; room broadcasts carry no recipient.  `gameStateB` marks an
`emitGameState` broadcast (its payload is the room snapshot). -/
inductive Msg where
  | gameError (pid : Nat) (text : String)
  | gameCreated (pid : Nat)
  | gameJoined (pid : Nat)
  | userJoined (username : String)
  | userLeft (username : String)
  | gameStateB
  | numberMarked (n : Int)
  | playerDeclaredWin (winnerId : Nat) (username : String)
  | gameDraw (n : Option Int)
  | newMatchRequested (toPid : Nat) (username : String)
  | newMatchAccepted
  | newMatchDeclined (username : String)
  | gameResetB
deriving Repr, DecidableEq

/-- `advanceTurn` (src/index.js lines 72-81): on an empty player list clear
the turn holder, otherwise increment `turnIndex` modulo the player count and
point `currentTurnPlayerId` at that seat, then broadcast state. -/
def advanceTurn (r : GameRoom) : GameRoom × List Msg :=
  if r.players.length = 0 then
    ({ r with currentTurnPlayerId := none }, [])
  else
    let ti := (r.turnIndex + 1) % r.players.length
    ({ r with turnIndex := ti, currentTurnPlayerId := (r.players[ti]?).map Player.id },
     [Msg.gameStateB])

/-- `resetGameRound` (src/index.js lines 87-110) on an existing room: clear
every round field, renumber the remaining players 1.., broadcast `gameReset`
and the new state.  (The source's early return for a missing room is handled
at each call site.) -/
def resetGameRound (r : GameRoom) : GameRoom × List Msg :=
  ({ r with
      gameStarted := false
      currentTurnPlayerId := none
      markedNumbers := []
      turnIndex := 0
      winnerId := none
      draw := false
      pendingNewMatchRequest := none
      players := r.players.enum.map (fun ip => { ip.2 with playerNumber := ip.1 + 1 }) },
   [Msg.gameResetB, Msg.gameStateB])

/-- `createGame` handler (src/index.js lines 120-156).  In the one-room
model: if the modelled room does not exist yet, this event creates it
(fresh code, empty room, creator pushed as player 1).  If it already
exists, `generateGameId` necessarily picks a *different* code, so the
modelled room is unchanged — unless the sender is bound to the modelled
room, in which case the handler rejects with the already-in-a-game error
before creating anything. -/
def createGame (pid : Nat) (username : String) (o : Option GameRoom) :
    Option GameRoom × List Msg :=
  match o with
  | none =>
      (some { players := [⟨pid, username, 1⟩]
              gameStarted := false
              currentTurnPlayerId := none
              markedNumbers := []
              turnIndex := 0
              winnerId := none
              draw := false
              pendingNewMatchRequest := none },
       [Msg.gameCreated pid, Msg.gameStateB, Msg.userJoined username])
  | some r =>
      if (idsOf r).contains pid then
        (some r, [Msg.gameError pid "You are already in a game. Please leave or reset it first."])
      else
        (some r, [])

/-- `joinGame` handler (src/index.js lines 159-195) for the modelled room's
code: reject a sender already in a game, a missing room, a full room
(2 players), or a started game; otherwise append the sender with the next
player number and announce the join. -/
def joinGame (pid : Nat) (username : String) (o : Option GameRoom) :
    Option GameRoom × List Msg :=
  if (match o with | some r => (idsOf r).contains pid | none => false) then
    (o, [Msg.gameError pid "You are already in a game. Please leave or reset it first."])
  else
    match o with
    | none => (none, [Msg.gameError pid "Game not found. Please check the ID."])
    | some r =>
        if 2 ≤ r.players.length then
          (some r, [Msg.gameError pid "Game room is full (max 2 players)."])
        else if r.gameStarted then
          (some r, [Msg.gameError pid "Game has already started."])
        else
          (some { r with players := r.players ++ [⟨pid, username, r.players.length + 1⟩] },
           [Msg.gameJoined pid, Msg.gameStateB, Msg.userJoined username])

/-- `startGame` handler (src/index.js lines 198-224).  A sender not bound to
the room resolves `gameRooms.get(null)` to `undefined` and gets the
not-in-a-room error.  Otherwise: reject if already started or fewer than two
players; else mark the game started, clear the outcome and pending-rematch
fields, pick a random starting index (modelled by `choice % length`) and
point the turn at it.  Note the source does NOT clear `markedNumbers` here. -/
def startGame (pid : Nat) (choice : Nat) (o : Option GameRoom) :
    Option GameRoom × List Msg :=
  match o with
  | none => (none, [Msg.gameError pid "Not in a game room."])
  | some r =>
      if ¬ (idsOf r).contains pid then
        (some r, [Msg.gameError pid "Not in a game room."])
      else if r.gameStarted then
        (some r, [Msg.gameError pid "Game has already started."])
      else if r.players.length < 2 then
        (some r, [Msg.gameError pid "Need at least 2 players to start the game."])
      else
        let ti := choice % r.players.length
        (some { r with
                  gameStarted := true
                  winnerId := none
                  draw := false
                  pendingNewMatchRequest := none
                  turnIndex := ti
                  currentTurnPlayerId := (r.players[ti]?).map Player.id },
         [Msg.gameStateB])

/-- `markNumber` handler (src/index.js lines 227-255).  An unbound sender
hits the `!gameRoom` arm of the first guard.  Guards: room active and
started, sender holds the turn, number not already called.  On success push
the number, broadcast `numberMarked`, and advance the turn unless an outcome
(winner or draw) is already recorded.  The source performs no range
validation on the number. -/
def markNumber (pid : Nat) (n : Int) (o : Option GameRoom) :
    Option GameRoom × List Msg :=
  match o with
  | none => (none, [Msg.gameError pid "Game not active or not started."])
  | some r =>
      if ¬ (idsOf r).contains pid then
        (some r, [Msg.gameError pid "Game not active or not started."])
      else if ¬ r.gameStarted then
        (some r, [Msg.gameError pid "Game not active or not started."])
      else if r.currentTurnPlayerId ≠ some pid then
        (some r, [Msg.gameError pid "It is not your turn."])
      else if r.markedNumbers.contains n then
        (some r, [Msg.gameError pid "Number already called."])
      else
        let r1 := { r with markedNumbers := r.markedNumbers ++ [n] }
        if r1.winnerId.isSome ∨ r1.draw then
          (some r1, [Msg.numberMarked n])
        else
          let p := advanceTurn r1
          (some p.1, Msg.numberMarked n :: p.2)

/-- `declareWin` handler (src/index.js lines 258-293).  Outer guard: room
missing (unbound sender), game not started, or already a draw.  Inside the
guard, a recorded winner different from the sender converts the outcome to a
draw (keeping `winnerId`), re-concluding the game and broadcasting
`gameDraw` tagged with the last marked number; every other guarded case is a
plain error.  Past the guard the sender is recorded as winner, the game
ends, and the win is broadcast with the winner's username. -/
def declareWin (pid : Nat) (o : Option GameRoom) : Option GameRoom × List Msg :=
  match o with
  | none => (none, [Msg.gameError pid "Cannot declare win. Game not active or already won."])
  | some r =>
      if ¬ (idsOf r).contains pid then
        (some r, [Msg.gameError pid "Cannot declare win. Game not active or already won."])
      else if r.gameStarted = false ∨ r.draw = true then
        match r.winnerId with
        | some w =>
            if w ≠ pid then
              (some { r with draw := true, gameStarted := false, currentTurnPlayerId := none },
               [Msg.gameDraw r.markedNumbers.getLast?, Msg.gameStateB])
            else
              (some r, [Msg.gameError pid "Cannot declare win. Game not active or already won."])
        | none =>
            (some r, [Msg.gameError pid "Cannot declare win. Game not active or already won."])
      else
        let winningUsername :=
          ((r.players.find? (fun p => p.id == pid)).map Player.username).getD "Unknown Player"
        (some { r with winnerId := some pid, gameStarted := false, currentTurnPlayerId := none },
         [Msg.playerDeclaredWin pid winningUsername, Msg.gameStateB])

/-- `requestNewMatch` handler (src/index.js lines 296-331): reject an
unbound sender, a started game, fewer than two players, or an existing
pending request; otherwise look up requester and opponent, record the
pending request and notify the opponent. -/
def requestNewMatch (pid : Nat) (o : Option GameRoom) : Option GameRoom × List Msg :=
  match o with
  | none => (none, [Msg.gameError pid "Not in a game room to request a new match."])
  | some r =>
      if ¬ (idsOf r).contains pid then
        (some r, [Msg.gameError pid "Not in a game room to request a new match."])
      else if r.gameStarted then
        (some r, [Msg.gameError pid "Game is still in progress. Cannot request new match."])
      else if r.players.length < 2 then
        (some r, [Msg.gameError pid "Need two players to request a new match."])
      else if r.pendingNewMatchRequest.isSome then
        (some r, [Msg.gameError pid "A new match request is already pending."])
      else
        match r.players.find? (fun p => p.id == pid),
              r.players.find? (fun p => p.id != pid) with
        | some requester, some opponent =>
            (some { r with pendingNewMatchRequest := some (requester.id, requester.username) },
             [Msg.newMatchRequested opponent.id requester.username, Msg.gameStateB])
        | _, _ =>
            (some r, [Msg.gameError pid "Opponent not found in room."])

/-- `acceptNewMatch` handler (src/index.js lines 334-347): reject when there
is no room (unbound sender), no pending request, or the sender is the
requester; otherwise reset the round and notify both players. -/
def acceptNewMatch (pid : Nat) (o : Option GameRoom) : Option GameRoom × List Msg :=
  match o with
  | none =>
      (none, [Msg.gameError pid "No pending new match request to accept or you are the requester."])
  | some r =>
      if ¬ (idsOf r).contains pid then
        (some r,
         [Msg.gameError pid "No pending new match request to accept or you are the requester."])
      else
        match r.pendingNewMatchRequest with
        | none =>
            (some r,
             [Msg.gameError pid "No pending new match request to accept or you are the requester."])
        | some req =>
            if req.1 = pid then
              (some r,
               [Msg.gameError pid "No pending new match request to accept or you are the requester."])
            else
              let p := resetGameRound r
              (some p.1, p.2 ++ [Msg.newMatchAccepted, Msg.gameStateB])

/-- `declineNewMatch` handler (src/index.js lines 350-371): same guards as
accept; on success clear the pending request and notify the requester and
the decliner. -/
def declineNewMatch (pid : Nat) (o : Option GameRoom) : Option GameRoom × List Msg :=
  match o with
  | none =>
      (none, [Msg.gameError pid "No pending new match request to decline or you are the requester."])
  | some r =>
      if ¬ (idsOf r).contains pid then
        (some r,
         [Msg.gameError pid "No pending new match request to decline or you are the requester."])
      else
        match r.pendingNewMatchRequest with
        | none =>
            (some r,
             [Msg.gameError pid "No pending new match request to decline or you are the requester."])
        | some req =>
            if req.1 = pid then
              (some r,
               [Msg.gameError pid "No pending new match request to decline or you are the requester."])
            else
              let declinerUsername :=
                ((r.players.find? (fun p => p.id == pid)).map Player.username).getD ""
              (some { r with pendingNewMatchRequest := none },
               [Msg.newMatchDeclined declinerUsername, Msg.newMatchDeclined declinerUsername,
                Msg.gameStateB])

/-- `resetGame` handler (src/index.js lines 394-416): reject an unbound
sender, a started game, or a pending rematch request; otherwise perform a
full round reset. -/
def resetGame (pid : Nat) (o : Option GameRoom) : Option GameRoom × List Msg :=
  match o with
  | none => (none, [Msg.gameError pid "Not in a game room to reset."])
  | some r =>
      if ¬ (idsOf r).contains pid then
        (some r, [Msg.gameError pid "Not in a game room to reset."])
      else if r.gameStarted then
        (some r, [Msg.gameError pid "Game is in progress. Please wait for a winner or disconnect."])
      else if r.pendingNewMatchRequest.isSome then
        (some r, [Msg.gameError pid "A new match request is pending. Please respond or wait."])
      else
        let p := resetGameRound r
        (some p.1, p.2)

/-- The shared tail of `leaveGame` and `disconnect` (src/index.js lines
451-462 and 499-508): after the turn-holder handling, force a round reset
if the game is started with fewer than two players left (a `resetGameRound`
on a just-deleted room only logs and returns), then emit the state snapshot
if the room still exists in the registry. -/
def departTail (o : Option GameRoom) : Option GameRoom × List Msg :=
  match o with
  | none => (none, [])
  | some r =>
      if r.gameStarted = true ∧ r.players.length < 2 then
        let q := resetGameRound r
        (some q.1, q.2 ++ [Msg.gameStateB])
      else (some r, [Msg.gameStateB])

/-- `leaveGame` handler (src/index.js lines 419-464).  A sender with no
bound room does nothing.  Otherwise: remove the sender from `players`,
announce `userLeft`, and if the sender held the turn of a started game
either recompute `turnIndex` (the departed holder is no longer found, so
the index falls back to 0) and advance the turn, or — when no players
remain — delete the room from the registry; finally run the shared
departure tail. -/
def leaveGame (pid : Nat) (o : Option GameRoom) : Option GameRoom × List Msg :=
  match o with
  | none => (none, [])
  | some r =>
      if ¬ (idsOf r).contains pid then
        (some r, [])
      else
        let leavingUsername :=
          ((r.players.find? (fun p => p.id == pid)).map Player.username).getD "Unknown Player"
        let r1 : GameRoom := { r with players := r.players.filter (fun p => p.id != pid) }
        let afterTurn : Option GameRoom × List Msg :=
          if r1.currentTurnPlayerId = some pid ∧ r1.gameStarted = true then
            if 0 < r1.players.length then
              let idx :=
                (r1.players.findIdx? (fun p => some p.id == r1.currentTurnPlayerId)).getD 0
              let q := advanceTurn { r1 with turnIndex := idx }
              (some q.1, q.2)
            else
              (none, [])
          else
            (some r1, [])
        let fin := departTail afterTurn.1
        (fin.1, Msg.userLeft leavingUsername :: (afterTurn.2 ++ fin.2))

/-- `disconnect` handler (src/index.js lines 468-511): textually the same
logic as `leaveGame` — remove the player, announce, handle a departing turn
holder (advance or delete the empty room), force-reset a started
under-populated round, re-emit state if the room survives.  The only
differences in the source are socket bookkeeping with no room-state
effect. -/
def disconnect (pid : Nat) (o : Option GameRoom) : Option GameRoom × List Msg :=
  leaveGame pid o

/-- The inbound events of the modelled room, each tagged with the sender's
connection id.  `startGame` additionally carries the random draw used to
pick the first turn (see `startGame`). -/
inductive Event where
  | createGame (pid : Nat) (username : String)
  | joinGame (pid : Nat) (username : String)
  | startGame (pid : Nat) (choice : Nat)
  | markNumber (pid : Nat) (n : Int)
  | declareWin (pid : Nat)
  | requestNewMatch (pid : Nat)
  | acceptNewMatch (pid : Nat)
  | declineNewMatch (pid : Nat)
  | resetGame (pid : Nat)
  | leaveGame (pid : Nat)
  | disconnect (pid : Nat)
deriving Repr, DecidableEq

/-- Dispatch one inbound event to its handler (the `socket.on` registrations
of src/index.js). -/
def step (o : Option GameRoom) : Event → Option GameRoom × List Msg
  | .createGame pid u => createGame pid u o
  | .joinGame pid u => joinGame pid u o
  | .startGame pid c => startGame pid c o
  | .markNumber pid n => markNumber pid n o
  | .declareWin pid => declareWin pid o
  | .requestNewMatch pid => requestNewMatch pid o
  | .acceptNewMatch pid => acceptNewMatch pid o
  | .declineNewMatch pid => declineNewMatch pid o
  | .resetGame pid => resetGame pid o
  | .leaveGame pid => leaveGame pid o
  | .disconnect pid => disconnect pid o

/-- Run a sequence of events from a registry state, keeping only the final
room state (the single-threaded event loop of §5 of the spec: each handler
runs to completion before the next event). -/
def run (o : Option GameRoom) (evs : List Event) : Option GameRoom :=
  evs.foldl (fun s e => (step s e).1) o

/-- A registry state is reachable when some event sequence produces it from
the empty registry. -/
def Reachable (o : Option GameRoom) : Prop :=
  ∃ evs : List Event, run none evs = o

/-- Concrete two-player lobby room, the state produced by
`createGame 1 "A"` followed by `joinGame 2 "B"`. -/
def lobbyAB : GameRoom where
  players := [⟨1, "A", 1⟩, ⟨2, "B", 2⟩]
  gameStarted := false
  currentTurnPlayerId := none
  markedNumbers := []
  turnIndex := 0
  winnerId := none
  draw := false
  pendingNewMatchRequest := none

/-- Concrete started two-player room with player 1 to move, the state
produced by `createGame 1 "A"`, `joinGame 2 "B"`, `startGame 1 0`. -/
def startedAB : GameRoom where
  players := [⟨1, "A", 1⟩, ⟨2, "B", 2⟩]
  gameStarted := true
  currentTurnPlayerId := some 1
  markedNumbers := []
  turnIndex := 0
  winnerId := none
  draw := false
  pendingNewMatchRequest := none

/-- Concrete started two-player room with player 2 to move, the state
produced by `createGame 1 "A"`, `joinGame 2 "B"`, `startGame 1 1`. -/
def startedBA : GameRoom where
  players := [⟨1, "A", 1⟩, ⟨2, "B", 2⟩]
  gameStarted := true
  currentTurnPlayerId := some 2
  markedNumbers := []
  turnIndex := 1
  winnerId := none
  draw := false
  pendingNewMatchRequest := none

/-! ## Invariants of reachable registry states -/

/-- Mapping a function of the entry over an `enumFrom` ignores the indices. -/
theorem map_enumFrom_snd_comp {α β : Type} (g : α → β) (l : List α) :
    ∀ n : Nat, (List.enumFrom n l).map (fun ip => g ip.2) = l.map g := by
  induction l with
  | nil => intro n; rfl
  | cons a t ih => intro n; simp [List.enumFrom, ih]

/-- Filtering out an element that is present strictly shrinks a list. -/
theorem length_filter_lt_length {α : Type} (f : α → Bool) (l : List α) (a : α)
    (ha : a ∈ l) (hfa : f a = false) : (l.filter f).length < l.length := by
  induction l with
  | nil => cases ha
  | cons b t ih =>
      rcases List.mem_cons.mp ha with rfl | h
      · have := List.length_filter_le f t
        simp [List.filter_cons, hfa]
        omega
      · have := ih h
        by_cases hfb : f b = true <;> simp [List.filter_cons, hfb] <;> omega

/-- The structural invariant of one room, maintained by every handler:
player ids are pairwise distinct, the two-player cap holds, a started round
has at least two players with `turnIndex` in range and the turn holder
derived from it, and a room in the lobby state (not started, no outcome)
has no marked numbers. -/
def RoomInv (r : GameRoom) : Prop :=
  (idsOf r).Nodup ∧
  r.players.length ≤ 2 ∧
  (r.gameStarted = true →
      2 ≤ r.players.length ∧
      r.turnIndex < r.players.length ∧
      r.currentTurnPlayerId = (r.players[r.turnIndex]?).map Player.id) ∧
  (r.gameStarted = false ∧ r.winnerId = none ∧ r.draw = false →
      r.markedNumbers = [])

/-- The registry invariant: the modelled entry, when present, satisfies
`RoomInv`. -/
def RegInv : Option GameRoom → Prop
  | none => True
  | some r => RoomInv r

theorem resetGameRound_idsOf (r : GameRoom) : idsOf (resetGameRound r).1 = idsOf r := by
  simp only [resetGameRound, idsOf, List.enum, List.map_map]
  exact map_enumFrom_snd_comp Player.id r.players 0

theorem resetGameRound_length (r : GameRoom) :
    (resetGameRound r).1.players.length = r.players.length := by
  have h := congrArg List.length (resetGameRound_idsOf r)
  simpa [idsOf] using h

/-- A reset re-establishes the room invariant from just the structural
facts about the player list. -/
theorem resetGameRound_roomInv (r : GameRoom)
    (hnd : (idsOf r).Nodup) (hlen : r.players.length ≤ 2) :
    RoomInv (resetGameRound r).1 := by
  refine ⟨?_, ?_, ?_, ?_⟩
  · rw [resetGameRound_idsOf]; exact hnd
  · rw [resetGameRound_length]; exact hlen
  · intro h
    simp [resetGameRound] at h
  · intro _
    simp [resetGameRound]

theorem regInv_createGame (pid : Nat) (u : String) (o : Option GameRoom)
    (h : RegInv o) : RegInv (createGame pid u o).1 := by
  match o with
  | none =>
      simp [createGame, RegInv, RoomInv, idsOf]
  | some r =>
      simp only [createGame]
      split <;> exact h

theorem regInv_joinGame (pid : Nat) (u : String) (o : Option GameRoom)
    (h : RegInv o) : RegInv (joinGame pid u o).1 := by
  match o with
  | none =>
      simp only [joinGame]
      split
      · exact h
      · exact h
  | some r =>
      obtain ⟨hnd, hlen, hstart, hmk⟩ := h
      simp only [joinGame]
      split
      · exact ⟨hnd, hlen, hstart, hmk⟩
      · next hmem =>
        split
        · exact ⟨hnd, hlen, hstart, hmk⟩
        · next hfull =>
          split
          · exact ⟨hnd, hlen, hstart, hmk⟩
          · next hst =>
            refine ⟨?_, ?_, ?_, ?_⟩
            · simp only [idsOf, List.map_append, List.map_cons, List.map_nil] at *
              have hpid : pid ∉ r.players.map Player.id := by
                simpa [idsOf] using hmem
              simp [List.nodup_append, hpid, hnd]
            · simp only [List.length_append, List.length_cons, List.length_nil]
              omega
            · intro hgs
              simp at hgs
              exact absurd hgs hst
            · intro hlob
              simp only at hlob
              exact hmk ⟨hlob.1, hlob.2.1, hlob.2.2⟩

theorem regInv_startGame (pid choice : Nat) (o : Option GameRoom)
    (h : RegInv o) : RegInv (startGame pid choice o).1 := by
  match o with
  | none => exact h
  | some r =>
      obtain ⟨hnd, hlen, hstart, hmk⟩ := h
      simp only [startGame]
      split
      · exact ⟨hnd, hlen, hstart, hmk⟩
      · split
        · exact ⟨hnd, hlen, hstart, hmk⟩
        · split
          · exact ⟨hnd, hlen, hstart, hmk⟩
          · next hfew =>
            refine ⟨hnd, hlen, ?_, ?_⟩
            · intro _
              refine ⟨?_, ?_, rfl⟩
              · show 2 ≤ r.players.length
                omega
              · show choice % r.players.length < r.players.length
                exact Nat.mod_lt choice (by omega)
            · intro hlob
              simp at hlob

theorem regInv_markNumber (pid : Nat) (n : Int) (o : Option GameRoom)
    (h : RegInv o) : RegInv (markNumber pid n o).1 := by
  match o with
  | none => exact h
  | some r =>
      obtain ⟨hnd, hlen, hstart, hmk⟩ := h
      simp only [markNumber]
      split
      · exact ⟨hnd, hlen, hstart, hmk⟩
      · next hmem =>
        split
        · exact ⟨hnd, hlen, hstart, hmk⟩
        · next hgs =>
          split
          · exact ⟨hnd, hlen, hstart, hmk⟩
          · split
            · exact ⟨hnd, hlen, hstart, hmk⟩
            · have hgs' : r.gameStarted = true := by
                revert hgs
                cases r.gameStarted <;> simp
              obtain ⟨h2, hti, hcur⟩ := hstart hgs'
              split
              · exact ⟨hnd, hlen, fun _ => ⟨h2, hti, hcur⟩, fun hc => by simp [hgs'] at hc⟩
              · simp only [advanceTurn]
                split
                · next hemp => omega
                · refine ⟨hnd, hlen, ?_, ?_⟩
                  · intro _
                    refine ⟨h2, ?_, rfl⟩
                    exact Nat.mod_lt _ (by omega)
                  · intro hc
                    simp [hgs'] at hc

theorem regInv_declareWin (pid : Nat) (o : Option GameRoom)
    (h : RegInv o) : RegInv (declareWin pid o).1 := by
  match o with
  | none => exact h
  | some r =>
      obtain ⟨hnd, hlen, hstart, hmk⟩ := h
      simp only [declareWin]
      split
      · exact ⟨hnd, hlen, hstart, hmk⟩
      · split
        · next hout =>
          split
          · split
            · refine ⟨hnd, hlen, ?_, ?_⟩
              · intro hgs; simp at hgs
              · intro hc; simp at hc
            · exact ⟨hnd, hlen, hstart, hmk⟩
          · exact ⟨hnd, hlen, hstart, hmk⟩
        · refine ⟨hnd, hlen, ?_, ?_⟩
          · intro hgs; simp at hgs
          · intro hc
            obtain ⟨-, hw, -⟩ := hc
            simp at hw

theorem regInv_requestNewMatch (pid : Nat) (o : Option GameRoom)
    (h : RegInv o) : RegInv (requestNewMatch pid o).1 := by
  match o with
  | none => exact h
  | some r =>
      obtain ⟨hnd, hlen, hstart, hmk⟩ := h
      simp only [requestNewMatch]
      split
      · exact ⟨hnd, hlen, hstart, hmk⟩
      · split
        · exact ⟨hnd, hlen, hstart, hmk⟩
        · split
          · exact ⟨hnd, hlen, hstart, hmk⟩
          · split
            · exact ⟨hnd, hlen, hstart, hmk⟩
            · split
              · exact ⟨hnd, hlen, hstart, hmk⟩
              · exact ⟨hnd, hlen, hstart, hmk⟩

theorem regInv_acceptNewMatch (pid : Nat) (o : Option GameRoom)
    (h : RegInv o) : RegInv (acceptNewMatch pid o).1 := by
  match o with
  | none => exact h
  | some r =>
      obtain ⟨hnd, hlen, hstart, hmk⟩ := h
      simp only [acceptNewMatch]
      split
      · exact ⟨hnd, hlen, hstart, hmk⟩
      · split
        · exact ⟨hnd, hlen, hstart, hmk⟩
        · split
          · exact ⟨hnd, hlen, hstart, hmk⟩
          · exact resetGameRound_roomInv r hnd hlen

theorem regInv_declineNewMatch (pid : Nat) (o : Option GameRoom)
    (h : RegInv o) : RegInv (declineNewMatch pid o).1 := by
  match o with
  | none => exact h
  | some r =>
      obtain ⟨hnd, hlen, hstart, hmk⟩ := h
      simp only [declineNewMatch]
      split
      · exact ⟨hnd, hlen, hstart, hmk⟩
      · split
        · exact ⟨hnd, hlen, hstart, hmk⟩
        · split
          · exact ⟨hnd, hlen, hstart, hmk⟩
          · exact ⟨hnd, hlen, hstart, hmk⟩

theorem regInv_resetGame (pid : Nat) (o : Option GameRoom)
    (h : RegInv o) : RegInv (resetGame pid o).1 := by
  match o with
  | none => exact h
  | some r =>
      obtain ⟨hnd, hlen, hstart, hmk⟩ := h
      simp only [resetGame]
      split
      · exact ⟨hnd, hlen, hstart, hmk⟩
      · split
        · exact ⟨hnd, hlen, hstart, hmk⟩
        · split
          · exact ⟨hnd, hlen, hstart, hmk⟩
          · exact resetGameRound_roomInv r hnd hlen

theorem departTail_regInv (o : Option GameRoom)
    (h : ∀ r, o = some r →
        (idsOf r).Nodup ∧ r.players.length ≤ 2 ∧
        (r.gameStarted = true → r.players.length < 2) ∧
        (r.gameStarted = false ∧ r.winnerId = none ∧ r.draw = false →
            r.markedNumbers = [])) :
    RegInv (departTail o).1 := by
  match o with
  | none => trivial
  | some r =>
      obtain ⟨hnd, hlen, hfew, hmk⟩ := h r rfl
      simp only [departTail]
      split
      · exact resetGameRound_roomInv r hnd hlen
      · next hcond =>
        refine ⟨hnd, hlen, ?_, hmk⟩
        intro hgs
        exact absurd ⟨hgs, hfew hgs⟩ hcond

theorem regInv_leaveGame (pid : Nat) (o : Option GameRoom)
    (h : RegInv o) : RegInv (leaveGame pid o).1 := by
  match o with
  | none => trivial
  | some r =>
      obtain ⟨hnd, hlen, hstart, hmk⟩ := h
      simp only [leaveGame]
      split
      · exact ⟨hnd, hlen, hstart, hmk⟩
      · next hmem =>
        have hpid : pid ∈ idsOf r := by
          have := not_not.mp hmem
          simpa using this
        obtain ⟨p, hpmem, hpids⟩ := List.mem_map.mp hpid
        have hfp : (fun q : Player => q.id != pid) p = false := by
          simp [hpids]
        have hflt : (r.players.filter (fun q => q.id != pid)).length < r.players.length :=
          length_filter_lt_length _ r.players p hpmem hfp
        have hndf : ((r.players.filter (fun q => q.id != pid)).map Player.id).Nodup := by
          have hsub := (List.filter_sublist (l := r.players) (p := fun q => q.id != pid)).map
            Player.id
          exact (hnd : (r.players.map Player.id).Nodup).sublist hsub
      -- the departure tail receives either `none` (room deleted),
      -- the advanced room, or the shrunk room
        split
        · next hheld =>
          split
          · next hpos =>
            apply departTail_regInv
            intro r2 hr2
            have hgs : r.gameStarted = true := hheld.2
            obtain ⟨h2, -, -⟩ := hstart hgs
            simp only [advanceTurn] at hr2
            split at hr2
            · next hzero =>
              have hz : (r.players.filter (fun q => q.id != pid)).length = 0 := hzero
              omega
            · cases hr2
              refine ⟨hndf, ?_, ?_, ?_⟩
              · show (r.players.filter (fun q => q.id != pid)).length ≤ 2
                omega
              · intro _
                show (r.players.filter (fun q => q.id != pid)).length < 2
                omega
              · intro hc
                have hcf : r.gameStarted = false := hc.1
                rw [hgs] at hcf
                simp at hcf
          · exact trivial
        · next hnheld =>
          apply departTail_regInv
          intro r2 hr2
          cases hr2
          refine ⟨hndf, ?_, ?_, ?_⟩
          · show (r.players.filter (fun q => q.id != pid)).length ≤ 2
            omega
          · intro hgs
            have hgs' : r.gameStarted = true := hgs
            obtain ⟨h2, -, -⟩ := hstart hgs'
            show (r.players.filter (fun q => q.id != pid)).length < 2
            omega
          · intro hc
            exact hmk ⟨hc.1, hc.2.1, hc.2.2⟩

theorem regInv_step (o : Option GameRoom) (e : Event) (h : RegInv o) :
    RegInv (step o e).1 := by
  cases e with
  | createGame pid u => exact regInv_createGame pid u o h
  | joinGame pid u => exact regInv_joinGame pid u o h
  | startGame pid c => exact regInv_startGame pid c o h
  | markNumber pid n => exact regInv_markNumber pid n o h
  | declareWin pid => exact regInv_declareWin pid o h
  | requestNewMatch pid => exact regInv_requestNewMatch pid o h
  | acceptNewMatch pid => exact regInv_acceptNewMatch pid o h
  | declineNewMatch pid => exact regInv_declineNewMatch pid o h
  | resetGame pid => exact regInv_resetGame pid o h
  | leaveGame pid => exact regInv_leaveGame pid o h
  | disconnect pid => exact regInv_leaveGame pid o h

theorem regInv_run (evs : List Event) : ∀ o : Option GameRoom,
    RegInv o → RegInv (run o evs) := by
  induction evs with
  | nil => intro o h; exact h
  | cons e t ih =>
      intro o h
      exact ih (step o e).1 (regInv_step o e h)

/-- Every reachable registry state satisfies the room invariant. -/
theorem reachable_regInv (o : Option GameRoom) (h : Reachable o) : RegInv o := by
  obtain ⟨evs, hevs⟩ := h
  rw [← hevs]
  exact regInv_run evs none trivial

/-! ## Claim theorems -/

/-- C2 (code bug in the source): after the last participant leaves — by
`leaveGame` or by `disconnect` — the room is supposed to be absent from the
registry, but the source only deletes the room inside the
departing-turn-holder branch, so a lobby room whose single participant
leaves stays registered with an empty player list.  This theorem evaluates
both handlers at that failing input: the registry entry is still `some`
room (with `players = []`) after the handler completes. -/
theorem C2_last_leave_room_still_registered :
    (run none [Event.createGame 1 "A", Event.leaveGame 1] =
      some { players := [], gameStarted := false, currentTurnPlayerId := none,
             markedNumbers := [], turnIndex := 0, winnerId := none, draw := false,
             pendingNewMatchRequest := none }) ∧
    (run none [Event.createGame 1 "A", Event.disconnect 1] =
      some { players := [], gameStarted := false, currentTurnPlayerId := none,
             markedNumbers := [], turnIndex := 0, winnerId := none, draw := false,
             pendingNewMatchRequest := none }) := ⟨rfl, rfl⟩

/-- C3 (counterexample): the reachable state after A creates, B joins, the
round starts, A marks 5, A declares win and then B declares win has BOTH
`winnerId = some 1` and `draw = true`, so the claimed mutual exclusivity of
the outcome fields fails on a reachable state. -/
theorem C3_counterexample :
    (run none [Event.createGame 1 "A", Event.joinGame 2 "B", Event.startGame 1 0,
        Event.markNumber 1 5, Event.declareWin 1, Event.declareWin 2]).map
      (fun r => (r.winnerId, r.draw)) = some (some 1, true) := rfl

/-- C3 (amended): a reset clears both `winnerId` and `draw` (and the marked
numbers); the mutual-exclusivity half of the claim fails, since the
concurrent-win draw state keeps the original `winnerId` alongside
`draw = true` on a reachable state. -/
theorem C3_amended_reset_clears_outcome :
    (∀ r : GameRoom, ((resetGameRound r).1).winnerId = none ∧
        ((resetGameRound r).1).draw = false ∧
        ((resetGameRound r).1).markedNumbers = []) ∧
    ((run none [Event.createGame 1 "A", Event.joinGame 2 "B", Event.startGame 1 0,
        Event.markNumber 1 5, Event.declareWin 1, Event.declareWin 2]).map
      (fun r => (r.winnerId, r.draw)) = some (some 1, true)) := by
  exact ⟨fun r => ⟨rfl, rfl, rfl⟩, rfl⟩

/-- C5 (counterexample): a `markNumber` with the out-of-range payload 99
sent by the current turn holder of a started round is NOT rejected: the
handler broadcasts `numberMarked 99` with no error to the sender, appends
99 to `markedNumbers`, and advances the turn to the other player. -/
theorem C5_counterexample :
    (step (run none [Event.createGame 1 "A", Event.joinGame 2 "B", Event.startGame 1 0])
        (Event.markNumber 1 99)).2 = [Msg.numberMarked 99, Msg.gameStateB] ∧
    (run none [Event.createGame 1 "A", Event.joinGame 2 "B", Event.startGame 1 0,
        Event.markNumber 1 99]).map
      (fun r => (r.markedNumbers, r.currentTurnPlayerId)) = some ([99], some 2) :=
  ⟨rfl, rfl⟩

/-- C5 (amended): the source performs no range validation in `markNumber`.
An integer outside 1..25, sent by the current turn holder during a started
round with no recorded outcome and not already called, is accepted exactly
like an in-range number: it is appended to `markedNumbers`, `numberMarked`
is broadcast (no error is sent to the sender), and the turn advances. -/
theorem C5_amended_no_range_validation (r : GameRoom) (pid : Nat) (n : Int)
    (hmem : pid ∈ idsOf r) (hgs : r.gameStarted = true)
    (hcur : r.currentTurnPlayerId = some pid)
    (hn : n ∉ r.markedNumbers) ( _hrange : n < 1 ∨ 25 < n)
    (hw : r.winnerId = none) (hd : r.draw = false) :
    markNumber pid n (some r) =
      (some { r with
                markedNumbers := r.markedNumbers ++ [n]
                turnIndex := (r.turnIndex + 1) % r.players.length
                currentTurnPlayerId :=
                  (r.players[(r.turnIndex + 1) % r.players.length]?).map Player.id },
       [Msg.numberMarked n, Msg.gameStateB]) := by
  have hc1 : (idsOf r).contains pid = true := by simpa using hmem
  have hc2 : r.markedNumbers.contains n = false := by simpa using hn
  have hlen0 : ¬ r.players.length = 0 := by
    obtain ⟨p, hp, -⟩ := List.mem_map.mp hmem
    have := List.length_pos_of_mem hp
    omega
  simp [markNumber, advanceTurn, hc1, hgs, hcur, hc2, hw, hd, hlen0, hmem, hn]

/-- Witness for C5: the concrete started room `startedAB`, in which player
1 holds the turn and marks the out-of-range number 99. -/
theorem C5_amended_no_range_validation_witness :
    markNumber 1 99 (some startedAB) =
      (some { startedAB with
                markedNumbers := [(99 : Int)]
                turnIndex := 1
                currentTurnPlayerId := some 2 },
       [Msg.numberMarked 99, Msg.gameStateB]) := by
  have h := C5_amended_no_range_validation startedAB 1 99
    (by decide) rfl rfl (by decide) (by decide) rfl rfl
  simpa [startedAB] using h

/-- C9: over every event sequence from the empty registry the modelled
room's participant count never exceeds 2, and a join attempt by a third
connection on a room that already holds 2 participants yields exactly the
full-room error with the registry entry unchanged. -/
theorem C9_capacity_invariant (evs : List Event) (r : GameRoom) (pid : Nat) (u : String)
    (hrun : run none evs = some r) :
    r.players.length ≤ 2 ∧
    (r.players.length = 2 → pid ∉ idsOf r →
      joinGame pid u (some r) =
        (some r, [Msg.gameError pid "Game room is full (max 2 players)."])) := by
  have hinv := reachable_regInv (some r) ⟨evs, hrun⟩
  obtain ⟨-, hlen, -, -⟩ := hinv
  refine ⟨hlen, ?_⟩
  intro h2 hnot
  have hc : (idsOf r).contains pid = false := by simpa using hnot
  simp [joinGame, hc, h2, hnot]

/-- Witness for C9 at the concrete two-player lobby produced by a create
and a join, with the third connection 3 attempting to join. -/
theorem C9_capacity_invariant_witness :
    lobbyAB.players.length ≤ 2 ∧
    joinGame 3 "C" (some lobbyAB) =
      (some lobbyAB, [Msg.gameError 3 "Game room is full (max 2 players)."]) := by
  have h := C9_capacity_invariant [Event.createGame 1 "A", Event.joinGame 2 "B"]
    lobbyAB 3 "C" rfl
  exact ⟨h.1, h.2 rfl (by decide)⟩

/-- C4: in every reachable registry state whose room is started, the
current turn holder is the id of exactly one current participant (the
degenerate all-left alternative of the claim is the left disjunct). -/
theorem C4_turn_holder_invariant (evs : List Event) (r : GameRoom)
    (hrun : run none evs = some r) (hgs : r.gameStarted = true) :
    (r.players = [] ∧ r.currentTurnPlayerId = none) ∨
    (∃ p, p ∈ r.players ∧ r.currentTurnPlayerId = some p.id ∧
        (r.players.map Player.id).count p.id = 1) := by
  have hinv := reachable_regInv (some r) ⟨evs, hrun⟩
  obtain ⟨hnd, hlen, hstart, -⟩ := hinv
  obtain ⟨h2, hti, hcur⟩ := hstart hgs
  right
  have hget : r.players[r.turnIndex]? = some (r.players[r.turnIndex]) :=
    List.getElem?_eq_getElem hti
  refine ⟨r.players[r.turnIndex], List.getElem_mem hti, ?_, ?_⟩
  · rw [hcur, hget]
    rfl
  · exact List.count_eq_one_of_mem hnd
      (List.mem_map_of_mem Player.id (List.getElem_mem hti))

/-- Witness for C4 at the concrete reachable started room `startedAB`. -/
theorem C4_turn_holder_invariant_witness :
    (startedAB.players = [] ∧ startedAB.currentTurnPlayerId = none) ∨
    (∃ p, p ∈ startedAB.players ∧ startedAB.currentTurnPlayerId = some p.id ∧
        (startedAB.players.map Player.id).count p.id = 1) :=
  C4_turn_holder_invariant
    [Event.createGame 1 "A", Event.joinGame 2 "B", Event.startGame 1 0]
    startedAB rfl rfl

/-- C6: a `startGame` accepted in a reachable LOBBY state (not started, no
outcome) with 2 participants starts the round, picks the turn holder among
the current participants, leaves `markedNumbers` empty (the source never
clears it, but every reachable LOBBY state already has it empty) and clears
the outcome fields. -/
theorem C6_start_in_lobby (evs : List Event) (r : GameRoom) (pid choice : Nat)
    (hrun : run none evs = some r)
    (hgs : r.gameStarted = false) (hw : r.winnerId = none) (hd : r.draw = false)
    (hmem : pid ∈ idsOf r) (hlen : r.players.length = 2) :
    ∃ r', startGame pid choice (some r) = (some r', [Msg.gameStateB]) ∧
      r'.gameStarted = true ∧
      (∃ p, p ∈ r.players ∧ r'.currentTurnPlayerId = some p.id) ∧
      r'.markedNumbers = [] ∧ r'.winnerId = none ∧ r'.draw = false ∧
      r'.players = r.players := by
  have hinv := reachable_regInv (some r) ⟨evs, hrun⟩
  obtain ⟨-, -, -, hmk⟩ := hinv
  have hmarked : r.markedNumbers = [] := hmk ⟨hgs, hw, hd⟩
  have hc : (idsOf r).contains pid = true := by simpa using hmem
  have hmod : choice % r.players.length < r.players.length :=
    Nat.mod_lt choice (by omega)
  have hget : r.players[choice % r.players.length]? =
      some (r.players[choice % r.players.length]) := List.getElem?_eq_getElem hmod
  have hstep : startGame pid choice (some r) =
      (some { r with
                gameStarted := true
                winnerId := none
                draw := false
                pendingNewMatchRequest := none
                turnIndex := choice % r.players.length
                currentTurnPlayerId :=
                  (r.players[choice % r.players.length]?).map Player.id },
       [Msg.gameStateB]) := by
    simp [startGame, hc, hgs, hlen, hmem]
  refine ⟨_, hstep, rfl,
    ⟨r.players[choice % r.players.length], List.getElem_mem hmod, ?_⟩, ?_, rfl, rfl, rfl⟩
  · show (r.players[choice % r.players.length]?).map Player.id = some _
    rw [hget]
    rfl
  · exact hmarked

/-- Witness for C6 at the concrete reachable lobby `lobbyAB`, started by
player 1 with random draw 1 (so player 2 opens). -/
theorem C6_start_in_lobby_witness :
    ∃ r', startGame 1 1 (some lobbyAB) = (some r', [Msg.gameStateB]) ∧
      r'.gameStarted = true ∧
      (∃ p, p ∈ lobbyAB.players ∧ r'.currentTurnPlayerId = some p.id) ∧
      r'.markedNumbers = [] ∧ r'.winnerId = none ∧ r'.draw = false ∧
      r'.players = lobbyAB.players :=
  C6_start_in_lobby [Event.createGame 1 "A", Event.joinGame 2 "B"] lobbyAB 1 1
    rfl rfl rfl rfl (by decide) rfl

/-- C1 (counterexample): after A wins and B counter-declares (draw state),
a THIRD `declareWin` from B is not rejected with an error — the handler
re-enters the draw branch and re-broadcasts `gameDraw` (with no
`gameError`), leaving the state unchanged. -/
theorem C1_third_declareWin_not_rejected :
    (step (run none [Event.createGame 1 "A", Event.joinGame 2 "B", Event.startGame 1 0,
        Event.markNumber 1 5, Event.declareWin 1, Event.declareWin 2])
        (Event.declareWin 2)).2 = [Msg.gameDraw (some 5), Msg.gameStateB] ∧
    (step (run none [Event.createGame 1 "A", Event.joinGame 2 "B", Event.startGame 1 0,
        Event.markNumber 1 5, Event.declareWin 1, Event.declareWin 2])
        (Event.declareWin 2)).1 =
      run none [Event.createGame 1 "A", Event.joinGame 2 "B", Event.startGame 1 0,
        Event.markNumber 1 5, Event.declareWin 1, Event.declareWin 2] := ⟨rfl, rfl⟩

/-- C1 (amended): win-then-counter-win arbitration.  In a started
two-player round with no outcome, A's `declareWin` records `winnerId = A`
and ends the round; B's subsequent `declareWin` converts the outcome to
`draw = true` while `winnerId = A` is kept; afterwards a third `declareWin`
from the recorded winner A is rejected with a non-fatal error and no state
change, while a third `declareWin` from B re-broadcasts the draw event —
also with no state change, but with no error. -/
theorem C1_win_then_counter_win (r : GameRoom) (pa pb : Player)
    (hps : r.players = [pa, pb]) (hab : pa.id ≠ pb.id)
    (hgs : r.gameStarted = true) ( _hw : r.winnerId = none) (hd : r.draw = false) :
    ∃ r1 r2,
      declareWin pa.id (some r) =
        (some r1, [Msg.playerDeclaredWin pa.id pa.username, Msg.gameStateB]) ∧
      r1.winnerId = some pa.id ∧ r1.gameStarted = false ∧
      r1.currentTurnPlayerId = none ∧ r1.draw = false ∧
      declareWin pb.id (some r1) =
        (some r2, [Msg.gameDraw r.markedNumbers.getLast?, Msg.gameStateB]) ∧
      r2.draw = true ∧ r2.winnerId = some pa.id ∧ r2.gameStarted = false ∧
      declareWin pa.id (some r2) =
        (some r2,
         [Msg.gameError pa.id "Cannot declare win. Game not active or already won."]) ∧
      declareWin pb.id (some r2) =
        (some r2, [Msg.gameDraw r.markedNumbers.getLast?, Msg.gameStateB]) := by
  have hbe : (pa.id == pb.id) = false := by simp [hab]
  refine ⟨{ r with
              winnerId := some pa.id
              gameStarted := false
              currentTurnPlayerId := none },
          { r with
              winnerId := some pa.id
              gameStarted := false
              currentTurnPlayerId := none
              draw := true },
    ?_, rfl, rfl, rfl, hd, ?_, rfl, rfl, rfl, ?_, ?_⟩
  · simp [declareWin, idsOf, hps, hgs, hd, List.find?]
  · simp [declareWin, idsOf, hps, hab, hd]
  · simp [declareWin, idsOf, hps]
  · simp [declareWin, idsOf, hps, hab]

/-- Witness for C1 at the concrete started room `startedAB` (players 1 and
2, no marked numbers, so the draw broadcast carries `none`). -/
theorem C1_win_then_counter_win_witness :
    ∃ r1 r2,
      declareWin 1 (some startedAB) =
        (some r1, [Msg.playerDeclaredWin 1 "A", Msg.gameStateB]) ∧
      r1.winnerId = some 1 ∧ r1.gameStarted = false ∧
      r1.currentTurnPlayerId = none ∧ r1.draw = false ∧
      declareWin 2 (some r1) = (some r2, [Msg.gameDraw none, Msg.gameStateB]) ∧
      r2.draw = true ∧ r2.winnerId = some 1 ∧ r2.gameStarted = false ∧
      declareWin 1 (some r2) =
        (some r2,
         [Msg.gameError 1 "Cannot declare win. Game not active or already won."]) ∧
      declareWin 2 (some r2) = (some r2, [Msg.gameDraw none, Msg.gameStateB]) :=
  C1_win_then_counter_win startedAB ⟨1, "A", 1⟩ ⟨2, "B", 2⟩ rfl (by decide) rfl rfl rfl

/-- C7: in a started two-player round where B holds the turn, B's
disconnect leaves a room whose participants are exactly [A] (renumbered to
seat 1), force-reset to the lobby: not started, no marked numbers, no
outcome, no turn holder. -/
theorem C7_departure_mid_turn (r : GameRoom) (pa pb : Player)
    (hps : r.players = [pa, pb]) (hab : pa.id ≠ pb.id)
    (hgs : r.gameStarted = true) (hcur : r.currentTurnPlayerId = some pb.id) :
    disconnect pb.id (some r) =
      (some { r with
                players := [{ pa with playerNumber := 1 }]
                gameStarted := false
                currentTurnPlayerId := none
                markedNumbers := []
                turnIndex := 0
                winnerId := none
                draw := false
                pendingNewMatchRequest := none },
       [Msg.userLeft pb.username, Msg.gameStateB, Msg.gameResetB, Msg.gameStateB,
        Msg.gameStateB]) := by
  have hbe : (pa.id == pb.id) = false := by simp [hab]
  have hne : (pa.id != pb.id) = true := by simp [bne, hbe]
  simp [disconnect, leaveGame, departTail, advanceTurn, resetGameRound, idsOf,
    hps, hgs, hcur, hbe, hne, List.find?, List.findIdx?, List.enum, List.enumFrom,
    List.filter]

/-- Witness for C7 at the concrete started room `startedBA` in which player
2 holds the turn and disconnects. -/
theorem C7_departure_mid_turn_witness :
    disconnect 2 (some startedBA) =
      (some { startedBA with
                players := [⟨1, "A", 1⟩]
                gameStarted := false
                currentTurnPlayerId := none
                markedNumbers := []
                turnIndex := 0
                winnerId := none
                draw := false
                pendingNewMatchRequest := none },
       [Msg.userLeft "B", Msg.gameStateB, Msg.gameResetB, Msg.gameStateB,
        Msg.gameStateB]) :=
  C7_departure_mid_turn startedBA ⟨1, "A", 1⟩ ⟨2, "B", 2⟩ rfl (by decide) rfl rfl

/-- C8: strict turn alternation for a started two-player round with no
outcome: an accepted `markNumber` from the holder switches the turn to the
other player, and advancing the turn twice returns it to the original
holder (involution for two participants). -/
theorem C8_turn_alternation (r : GameRoom) (pa pb : Player) (n : Int)
    (hps : r.players = [pa, pb])
    (hgs : r.gameStarted = true) (hw : r.winnerId = none) (hd : r.draw = false)
    (hti : r.turnIndex < 2)
    (hcur : r.currentTurnPlayerId = some ((if r.turnIndex = 0 then pa else pb).id))
    (hn : n ∉ r.markedNumbers) :
    (∃ r', markNumber ((if r.turnIndex = 0 then pa else pb).id) n (some r) =
        (some r', [Msg.numberMarked n, Msg.gameStateB]) ∧
      r'.currentTurnPlayerId = some ((if r.turnIndex = 0 then pb else pa).id) ∧
      r'.gameStarted = true) ∧
    ((advanceTurn (advanceTurn r).1).1).currentTurnPlayerId = r.currentTurnPlayerId := by
  have hc2 : r.markedNumbers.contains n = false := by simpa using hn
  have hcase : r.turnIndex = 0 ∨ r.turnIndex = 1 := by omega
  rcases hcase with h0 | h1
  · constructor
    · refine ⟨{ r with markedNumbers := r.markedNumbers ++ [n],
                       turnIndex := 1,
                       currentTurnPlayerId := some pb.id }, ?_, ?_, ?_⟩
      · simp [markNumber, advanceTurn, idsOf, hps, h0, hgs, hcur, hw, hd, hc2, hn]
      · simp [h0]
      · exact hgs
    · simp [advanceTurn, hps, h0, hcur]
  · constructor
    · refine ⟨{ r with markedNumbers := r.markedNumbers ++ [n],
                       turnIndex := 0,
                       currentTurnPlayerId := some pa.id }, ?_, ?_, ?_⟩
      · simp [markNumber, advanceTurn, idsOf, hps, h1, hgs, hcur, hw, hd, hc2, hn]
      · simp [h1]
      · exact hgs
    · simp [advanceTurn, hps, h1, hcur]

/-- Witness for C8 at the concrete started room `startedAB` (player 1
holds the turn) marking 7. -/
theorem C8_turn_alternation_witness :
    (∃ r', markNumber 1 7 (some startedAB) =
        (some r', [Msg.numberMarked 7, Msg.gameStateB]) ∧
      r'.currentTurnPlayerId = some 2 ∧ r'.gameStarted = true) ∧
    ((advanceTurn (advanceTurn startedAB).1).1).currentTurnPlayerId =
      startedAB.currentTurnPlayerId :=
  C8_turn_alternation startedAB ⟨1, "A", 1⟩ ⟨2, "B", 2⟩ 7 rfl rfl rfl rfl
    (by decide) rfl (by decide)

/-- C10: `requestNewMatch` from either participant succeeds in every
two-player room that is not started and has no pending request — the guards
never require a concluded round, so this includes a fresh lobby in which no
round has ever been started: the pending request records the requester and
the opponent is notified. -/
theorem C10_rematch_request_in_lobby (r : GameRoom) (pa pb : Player)
    (hps : r.players = [pa, pb]) (hab : pa.id ≠ pb.id)
    (hgs : r.gameStarted = false) (hpend : r.pendingNewMatchRequest = none) :
    requestNewMatch pa.id (some r) =
      (some { r with pendingNewMatchRequest := some (pa.id, pa.username) },
       [Msg.newMatchRequested pb.id pa.username, Msg.gameStateB]) ∧
    requestNewMatch pb.id (some r) =
      (some { r with pendingNewMatchRequest := some (pb.id, pb.username) },
       [Msg.newMatchRequested pa.id pb.username, Msg.gameStateB]) := by
  have hbe : (pa.id == pb.id) = false := by simp [hab]
  have hbe2 : (pb.id == pa.id) = false := by
    simp only [beq_eq_false_iff_ne]
    exact fun h => hab h.symm
  constructor <;>
    simp [requestNewMatch, idsOf, hps, hgs, hpend, hbe, hbe2, List.find?, bne]

/-- Witness for C10 at the concrete fresh lobby `lobbyAB`, in which no
round has ever been started; player 1 requests the rematch. -/
theorem C10_rematch_request_in_lobby_witness :
    requestNewMatch 1 (some lobbyAB) =
      (some { lobbyAB with pendingNewMatchRequest := some (1, "A") },
       [Msg.newMatchRequested 2 "A", Msg.gameStateB]) ∧
    requestNewMatch 2 (some lobbyAB) =
      (some { lobbyAB with pendingNewMatchRequest := some (2, "B") },
       [Msg.newMatchRequested 1 "B", Msg.gameStateB]) :=
  C10_rematch_request_in_lobby lobbyAB ⟨1, "A", 1⟩ ⟨2, "B", 2⟩ rfl (by decide) rfl rfl

/-- Witness for C3 applying the reset half of the amended claim at the
concrete room `startedAB`. -/
theorem C3_amended_reset_clears_outcome_witness :
    ((resetGameRound startedAB).1).winnerId = none ∧
    ((resetGameRound startedAB).1).draw = false ∧
    ((resetGameRound startedAB).1).markedNumbers = [] :=
  (C3_amended_reset_clears_outcome).1 startedAB
